import Mathlib

/-!
Verification of the GratisDNS certbot plugin client
(`certbot_dns_gratisdns/dns_gratisdns.py`, class `_GratisDnsClient`).

Strings are modelled as `List Char`.  The HTTP layer is modelled as a pure
environment `Env : Request → List Char` mapping each request to the response
body the server would return; each client operation returns the list of
requests it issued (in order) together with its outcome.
-/

/-- Prefix test: `startsWith s p = true` iff `p` is a prefix of `s`. -/
def startsWith : List Char → List Char → Bool
  | _, [] => true
  | [], _ :: _ => false
  | c :: s, d :: p => c == d && startsWith s p

/-- Python `s.endswith(p)` (suffix test), used by the
`validation_domain_name.endswith("." + full_domain)` assertions. -/
def endsWith (s p : List Char) : Bool :=
  startsWith s.reverse p.reverse

/-- Python substring test `p in s`: `strContains s p = true` iff `p` occurs
as a contiguous substring of `s`. -/
def strContains : List Char → List Char → Bool
  | [], p => startsWith [] p
  | c :: t, p => startsWith (c :: t) p || strContains t p

/-- Start index of the last occurrence of `sep` in `s` (`none` when `sep`
does not occur).  This is the split point used by Python `s.rpartition(sep)`. -/
def lastStart : List Char → List Char → Option Nat
  | [], sep => if startsWith [] sep then some 0 else none
  | c :: t, sep =>
    match lastStart t sep with
    | some i => some (i + 1)
    | none => if startsWith (c :: t) sep then some 0 else none

/-- Python `s.rpartition(sep)[0]`: the part of `s` before the last occurrence
of `sep`, and `""` when `sep` does not occur (Python returns `("", "", s)`). -/
def rpartition0 (s sep : List Char) : List Char :=
  match lastStart s sep with
  | none => []
  | some i => s.take i

/-- The regex character class `[0-9]+` applied greedily at the front of `s`. -/
def takeDigits (s : List Char) : List Char :=
  s.takeWhile Char.isDigit

/-- Python `int` on a (non-empty) decimal digit string. -/
def digitsToNat (ds : List Char) : Nat :=
  ds.foldl (fun a c => a * 10 + (c.toNat - 48)) 0

/-! ### The scraping regex

`get_txt_record_id` runs
`re.search(r">%s.*?action=dns_primary_delete_txt(?:&|&amp;)id=([0-9]+)" % re.escape(validation), text, re.S)`.
The model below implements exactly the backtracking behaviour of that
pattern: `re.search` tries start positions left to right; at each start the
literal `>` and the (escaped, hence literal) validation value must match;
the lazy `.*?` (with `re.S`, so any characters) tries the shortest gap
first; the alternation tries `&` before `&amp;`; the trailing greedy
`([0-9]+)` captures the maximal digit run. -/

/-- The literal marker from the pattern. -/
def markerL : List Char := "action=dns_primary_delete_txt".data

/-- `markerL` without its final character (used to state "no occurrence of
the marker strictly before a designated one"). -/
def markerCut : List Char := "action=dns_primary_delete_tx".data

/-- Matches `(?:&|&amp;)id=([0-9]+)` at the front of `s`, returning the
captured digit run. `&` is tried before `&amp;`; the two branch literals are
mutually exclusive prefixes, so no further backtracking arises. -/
def ampIdDigits (s : List Char) : Option (List Char) :=
  if startsWith s "&id=".data then
    if (takeDigits (s.drop 4)).isEmpty then none else some (takeDigits (s.drop 4))
  else if startsWith s "&amp;id=".data then
    if (takeDigits (s.drop 8)).isEmpty then none else some (takeDigits (s.drop 8))
  else none

/-- Matches `action=dns_primary_delete_txt(?:&|&amp;)id=([0-9]+)` at the
front of `s`, returning the captured id. -/
def tailMatchHere (s : List Char) : Option Nat :=
  if startsWith s markerL then
    match ampIdDigits (s.drop markerL.length) with
    | some ds => some (digitsToNat ds)
    | none => none
  else none

/-- The lazy `.*?` between the value and the deletion link: try the tail
pattern at each successive position, shortest gap first. -/
def findTailFrom : List Char → Option Nat
  | [] => none
  | c :: t =>
    match tailMatchHere (c :: t) with
    | some n => some n
    | none => findTailFrom t

/-- Tries the whole pattern anchored at the current position: a literal `>`,
then the literal value, then the lazy gap and the deletion link. -/
def startMatchHere (value s : List Char) : Option Nat :=
  match s with
  | [] => none
  | c :: rest =>
    if c == '>' && startsWith rest value then findTailFrom (rest.drop value.length)
    else none

/-- `re.search` over the body: try each start position left to right. -/
def searchFrom (value : List Char) : List Char → Option Nat
  | [] => none
  | c :: t =>
    match startMatchHere value (c :: t) with
    | some n => some n
    | none => searchFrom value t

/-! ### Requests, failures and the client operations -/

/-- The HTTP requests `_GratisDnsClient` can issue against
`https://admin.gratisdns.com`, identified by their `action` parameter and
payload, in the order the fields appear in the source. -/
inductive Request where
  /-- `POST {login, password, action="logmein", oauth=totp}` (from `login`). -/
  | loginPost : List Char → List Char → List Char → Request
  /-- `GET {action="usersetup_user"}` (from `login`). -/
  | userSetupGet : Request
  /-- `GET {action="dns_primarydns"}` (from `check_domain`). -/
  | primaryDnsGet : Request
  /-- `GET {action="dns_primary_record_add_txt", user_domain}` plus
  `POST {action="dns_primary_record_added_txt", name, ttl, txtdata, user_domain}`
  (from `add_txt_record`); fields: user_domain, name, ttl, txtdata. -/
  | addTxtPost : List Char → List Char → Nat → List Char → Request
  /-- `GET {action="dns_primary_changeDNSsetup", user_domain}`
  (from `get_txt_record_id`). -/
  | changeSetupGet : List Char → Request
  /-- `GET {action="dns_primary_delete_txt", id, user_domain}`
  (from `del_txt_record`). -/
  | deleteTxtGet : Nat → List Char → Request
  deriving DecidableEq

/-- The failure kinds of the client (each `raise` site in the source). -/
inductive GdnsError where
  /-- `Exception("GratisDNS login failed for %s")` in `login`. -/
  | authenticationError
  /-- `Exception("Did not find the domain %s ...")` in `check_domain`. -/
  | domainNotFoundError
  /-- `Exception("Regex match failed")` in `get_txt_record_id`. -/
  | parseError
  /-- `Exception("TXT record was not deleted!")` in `del_txt_record`. -/
  | deletionFailedError
  /-- `AssertionError` from `assert validation_domain_name.endswith(...)`. -/
  | preconditionError
  deriving DecidableEq

/-- A pure model of the remote server: the response body for each request. -/
abbrev Env := Request → List Char

/-- The client state: credentials, the current TOTP code (the TOTP library
is a black box, so `totp.now()` is an input), and the TTL. -/
structure Client where
  username : List Char
  password : List Char
  totpNow : List Char
  ttl : Nat
  deriving DecidableEq

/-- `_GratisDnsClient.login`: POST the credentials with the TOTP code
(response unused), GET the user-setup page, and fail iff the username does
not occur in that second response body. -/
def login (cl : Client) (env : Env) : List Request × Option GdnsError :=
  ([Request.loginPost cl.username cl.password cl.totpNow, Request.userSetupGet],
   if strContains (env Request.userSetupGet) cl.username then none
   else some GdnsError.authenticationError)

/-- `_GratisDnsClient.check_domain`: GET the primary-DNS listing and fail
iff `full_domain` does not occur in the response body. -/
def check_domain (env : Env) (full_domain : List Char) :
    List Request × Option GdnsError :=
  ([Request.primaryDnsGet],
   if strContains (env Request.primaryDnsGet) full_domain then none
   else some GdnsError.domainNotFoundError)

/-- `_GratisDnsClient.add_txt_record`: login, check the domain, assert the
suffix precondition, compute the subdomain with `rpartition` and POST the
add-record request (its response body is never inspected). -/
def add_txt_record (cl : Client) (env : Env)
    (full_domain validation_domain_name validation : List Char) :
    List Request × Option GdnsError :=
  match login cl env with
  | (t1, some e) => (t1, some e)
  | (t1, none) =>
    match check_domain env full_domain with
    | (t2, some e) => (t1 ++ t2, some e)
    | (t2, none) =>
      if endsWith validation_domain_name ('.' :: full_domain) then
        (t1 ++ t2 ++
          [Request.addTxtPost full_domain
            (rpartition0 validation_domain_name ('.' :: full_domain)) cl.ttl validation],
         none)
      else (t1 ++ t2, some GdnsError.preconditionError)

/-- The response-body inspection of `_GratisDnsClient.get_txt_record_id`:
if the validation value is absent, return the `None` sentinel; otherwise run
the regex and fail when it does not match. -/
def get_txt_record_id_body (validation body : List Char) :
    Except GdnsError (Option Nat) :=
  if strContains body validation then
    match searchFrom validation body with
    | none => Except.error GdnsError.parseError
    | some n => Except.ok (some n)
  else Except.ok none

/-- `_GratisDnsClient.get_txt_record_id`: GET the change-DNS-setup listing
for the domain and scrape it. -/
def get_txt_record_id (env : Env) (full_domain validation : List Char) :
    List Request × Except GdnsError (Option Nat) :=
  ([Request.changeSetupGet full_domain],
   get_txt_record_id_body validation (env (Request.changeSetupGet full_domain)))

/-- The success marker checked by `del_txt_record`. -/
def successMarker : List Char := "Record was deleted".data

/-- `_GratisDnsClient.del_txt_record`: login, check the domain, assert the
suffix precondition, look up the record id; when no id is found return
successfully, otherwise GET the deletion request and fail iff the success
marker is absent from its response body. -/
def del_txt_record (cl : Client) (env : Env)
    (full_domain validation_domain_name validation : List Char) :
    List Request × Option GdnsError :=
  match login cl env with
  | (t1, some e) => (t1, some e)
  | (t1, none) =>
    match check_domain env full_domain with
    | (t2, some e) => (t1 ++ t2, some e)
    | (t2, none) =>
      if endsWith validation_domain_name ('.' :: full_domain) then
        match get_txt_record_id env full_domain validation with
        | (t3, Except.error e) => (t1 ++ t2 ++ t3, some e)
        | (t3, Except.ok none) => (t1 ++ t2 ++ t3, none)
        | (t3, Except.ok (some record_id)) =>
          (t1 ++ t2 ++ t3 ++ [Request.deleteTxtGet record_id full_domain],
           if strContains (env (Request.deleteTxtGet record_id full_domain)) successMarker
           then none
           else some GdnsError.deletionFailedError)
      else (t1 ++ t2, some GdnsError.preconditionError)

/-! ### The Python exception values (for the distinctness claim)

All four runtime failures are raised as `Exception(message)`; the
precondition failure is an `AssertionError` with no message. -/

/-- A Python exception value: its class name and its message. -/
structure PyExc where
  excType : List Char
  message : List Char
  deriving DecidableEq

/-- The exception value each failure kind is surfaced as, with the dynamic
message parts (`self.username`, `full_domain`) as parameters. -/
def pyExcOf (e : GdnsError) (username full_domain : List Char) : PyExc :=
  match e with
  | GdnsError.authenticationError =>
    ⟨"Exception".data, "GratisDNS login failed for ".data ++ username⟩
  | GdnsError.domainNotFoundError =>
    ⟨"Exception".data,
     "Did not find the domain ".data ++ full_domain ++
       " in the GratisDNS account for ".data ++ username⟩
  | GdnsError.parseError => ⟨"Exception".data, "Regex match failed".data⟩
  | GdnsError.deletionFailedError =>
    ⟨"Exception".data, "TXT record was not deleted!".data⟩
  | GdnsError.preconditionError => ⟨"AssertionError".data, []⟩

/-- A discriminator on exception values: class-name head and message head. -/
def excKindCode (p : PyExc) : Option Char × Option Char :=
  (p.excType.head?, p.message.head?)

/-- The discriminator value of each failure kind. -/
def codeOf : GdnsError → Option Char × Option Char
  | GdnsError.authenticationError => (some 'E', some 'G')
  | GdnsError.domainNotFoundError => (some 'E', some 'D')
  | GdnsError.parseError => (some 'E', some 'R')
  | GdnsError.deletionFailedError => (some 'E', some 'T')
  | GdnsError.preconditionError => (some 'A', none)

/-! ### Basic list lemmas -/

theorem dropAppPlus (p t : List Char) (k : Nat) :
    (p ++ t).drop (p.length + k) = t.drop k := by
  induction p with
  | nil => simp
  | cons c p ih =>
    rw [List.cons_append, List.length_cons,
      show p.length + 1 + k = (p.length + k) + 1 by omega, List.drop_succ_cons]
    exact ih

theorem dropAppSelf (p t : List Char) : (p ++ t).drop p.length = t := by
  have h := dropAppPlus p t 0
  rw [Nat.add_zero, List.drop_zero] at h
  exact h

theorem takeAppPlus (p t : List Char) (k : Nat) :
    (p ++ t).take (p.length + k) = p ++ t.take k := by
  induction p with
  | nil => simp
  | cons c p ih =>
    rw [List.cons_append, List.length_cons,
      show p.length + 1 + k = (p.length + k) + 1 by omega, List.take_succ_cons,
      ih, List.cons_append]

theorem takeAppSelf (p t : List Char) : (p ++ t).take p.length = p := by
  have h := takeAppPlus p t 0
  rw [Nat.add_zero, List.take_zero, List.append_nil] at h
  exact h

theorem dropAppLe (p t : List Char) (k : Nat) (h : k ≤ p.length) :
    (p ++ t).drop k = p.drop k ++ t := by
  induction p generalizing k with
  | nil =>
    have : k = 0 := Nat.le_zero.mp h
    simp [this]
  | cons c p ih =>
    cases k with
    | zero => simp
    | succ k =>
      rw [List.cons_append, List.drop_succ_cons, List.drop_succ_cons]
      exact ih k (by simpa using h)

theorem dropDropOwn (s : List Char) (n m : Nat) :
    (s.drop n).drop m = s.drop (n + m) := by
  induction n generalizing s with
  | zero => simp
  | succ n ih =>
    cases s with
    | nil => simp
    | cons c t =>
      rw [show n + 1 + m = (n + m) + 1 by omega, List.drop_succ_cons,
        List.drop_succ_cons, ih]

theorem dropTakeOwn (s : List Char) (n q : Nat) :
    (s.take n).drop q = (s.drop q).take (n - q) := by
  induction q generalizing s n with
  | zero => simp
  | succ q ih =>
    cases s with
    | nil => simp
    | cons c t =>
      cases n with
      | zero => simp
      | succ n =>
        rw [List.take_succ_cons, List.drop_succ_cons, List.drop_succ_cons, ih,
          Nat.succ_sub_succ]

/-! ### Lemmas about `startsWith`, `endsWith`, `strContains` -/

theorem startsWith_length {s p : List Char} (h : startsWith s p = true) :
    p.length ≤ s.length := by
  induction p generalizing s with
  | nil => simp
  | cons d p ih =>
    cases s with
    | nil => simp [startsWith] at h
    | cons c s =>
      rw [startsWith, Bool.and_eq_true] at h
      have := ih h.2
      simp only [List.length_cons]
      omega

theorem startsWith_append (p t : List Char) : startsWith (p ++ t) p = true := by
  induction p with
  | nil => cases t <;> rfl
  | cons c p ih => simp [startsWith, ih]

theorem startsWith_refl (s : List Char) : startsWith s s = true := by
  simpa using startsWith_append s []

theorem startsWith_take {s p : List Char} {k : Nat} (h : startsWith s p = true)
    (hk : p.length ≤ k) : startsWith (s.take k) p = true := by
  induction p generalizing s k with
  | nil => cases (s.take k) <;> rfl
  | cons d p ih =>
    cases s with
    | nil => simp [startsWith] at h
    | cons c s =>
      cases k with
      | zero => simp at hk
      | succ k =>
        rw [startsWith, Bool.and_eq_true] at h
        rw [List.take_succ_cons, startsWith, Bool.and_eq_true]
        exact ⟨h.1, ih h.2 (by simpa using hk)⟩

theorem strContains_cons (c : Char) (t p : List Char) :
    strContains (c :: t) p = (startsWith (c :: t) p || strContains t p) := rfl

theorem strContains_of_drop {s p : List Char} {q : Nat}
    (h : startsWith (s.drop q) p = true) : strContains s p = true := by
  induction q generalizing s with
  | zero =>
    cases s with
    | nil => exact h
    | cons c t =>
      rw [strContains_cons, Bool.or_eq_true]
      exact Or.inl (by simpa using h)
  | succ q ih =>
    cases s with
    | nil => exact h
    | cons c t =>
      rw [strContains_cons, Bool.or_eq_true]
      exact Or.inr (ih (by simpa [List.drop_succ_cons] using h))

theorem strContains_mid (x p y : List Char) :
    strContains (x ++ (p ++ y)) p = true := by
  have h : startsWith ((x ++ (p ++ y)).drop x.length) p = true := by
    rw [dropAppSelf]
    exact startsWith_append p y
  exact strContains_of_drop h

theorem endsWith_append (x p : List Char) : endsWith (x ++ p) p = true := by
  rw [endsWith, List.reverse_append]
  exact startsWith_append p.reverse x.reverse

/-! ### The `rpartition` computation -/

theorem lastStart_none {s sep : List Char} (h : s.length < sep.length) :
    lastStart s sep = none := by
  induction s with
  | nil =>
    cases sep with
    | nil => simp at h
    | cons d p => simp [lastStart, startsWith]
  | cons c t ih =>
    have ht : t.length < sep.length := by
      simp only [List.length_cons] at h
      omega
    have hsw : startsWith (c :: t) sep = false := by
      cases hb : startsWith (c :: t) sep with
      | false => rfl
      | true =>
        have := startsWith_length hb
        simp only [List.length_cons] at h this
        omega
    simp [lastStart, ih ht, hsw]

theorem lastStart_append (sub sep : List Char) (h : sep ≠ []) :
    lastStart (sub ++ sep) sep = some sub.length := by
  induction sub with
  | nil =>
    cases sep with
    | nil => exact absurd rfl h
    | cons d p =>
      have h1 : lastStart p (d :: p) = none := lastStart_none (by simp)
      simp [lastStart, h1, startsWith_refl]
  | cons c sub ih =>
    simp [List.cons_append, lastStart, ih]

theorem rpartition0_append (sub sep : List Char) (h : sep ≠ []) :
    rpartition0 (sub ++ sep) sep = sub := by
  simp [rpartition0, lastStart_append sub sep h, takeAppSelf]

/-! ### Unfolding lemmas for the regex scanner -/

theorem findTailFrom_cons (c : Char) (t : List Char) :
    findTailFrom (c :: t) =
      match tailMatchHere (c :: t) with
      | some n => some n
      | none => findTailFrom t := rfl

theorem searchFrom_cons (value : List Char) (c : Char) (t : List Char) :
    searchFrom value (c :: t) =
      match startMatchHere value (c :: t) with
      | some n => some n
      | none => searchFrom value t := rfl

theorem startMatchHere_cons (value : List Char) (c : Char) (rest : List Char) :
    startMatchHere value (c :: rest) =
      if c == '>' && startsWith rest value then findTailFrom (rest.drop value.length)
      else none := rfl

theorem tailMatchHere_of_no_marker {s : List Char}
    (h : startsWith s markerL = false) : tailMatchHere s = none := by
  simp [tailMatchHere, h]

/-! ### Computing the regex on a decomposed body -/

theorem takeWhileAppAll {p : Char → Bool} {ds t : List Char}
    (h1 : ds.all p = true) (h2 : t.takeWhile p = []) :
    (ds ++ t).takeWhile p = ds := by
  induction ds with
  | nil => simpa using h2
  | cons c ds ih =>
    rw [List.all_cons, Bool.and_eq_true] at h1
    rw [List.cons_append, List.takeWhile_cons, if_pos h1.1, ih h1.2]

theorem ampIdAt (ds t : List Char) (h1 : ds.isEmpty = false)
    (h2 : ds.all Char.isDigit = true) (h3 : t.takeWhile Char.isDigit = []) :
    ampIdDigits ("&id=".data ++ (ds ++ t)) = some ds := by
  have hsw : startsWith ("&id=".data ++ (ds ++ t)) "&id=".data = true :=
    startsWith_append _ _
  have hdrop : ("&id=".data ++ (ds ++ t)).drop 4 = ds ++ t := rfl
  have htd : takeDigits (("&id=".data ++ (ds ++ t)).drop 4) = ds := by
    rw [hdrop, takeDigits, takeWhileAppAll h2 h3]
  rw [ampIdDigits.eq_def, if_pos hsw, htd, h1]
  rfl

theorem tailAtMarker (ds t : List Char) (h1 : ds.isEmpty = false)
    (h2 : ds.all Char.isDigit = true) (h3 : t.takeWhile Char.isDigit = []) :
    tailMatchHere (markerL ++ ("&id=".data ++ (ds ++ t))) = some (digitsToNat ds) := by
  have hsw : startsWith (markerL ++ ("&id=".data ++ (ds ++ t))) markerL = true :=
    startsWith_append _ _
  have hdrop : (markerL ++ ("&id=".data ++ (ds ++ t))).drop markerL.length
      = "&id=".data ++ (ds ++ t) := dropAppSelf _ _
  rw [tailMatchHere.eq_def, if_pos hsw, hdrop, ampIdAt ds t h1 h2 h3]

/-! ### The lazy gap finds the designated deletion link first -/

theorem mainTail {n : Nat} {rest : List Char}
    (hres : tailMatchHere (markerL ++ rest) = some n) :
    ∀ u : List Char,
      (∀ q, q < u.length →
        startsWith ((u ++ (markerL ++ rest)).drop q) markerL = false) →
      findTailFrom (u ++ (markerL ++ rest)) = some n := by
  intro u
  induction u with
  | nil =>
    intro _
    have hct : markerL ++ rest
        = 'a' :: ("ction=dns_primary_delete_txt".data ++ rest) := rfl
    rw [List.nil_append, hct, findTailFrom_cons, ← hct, hres]
  | cons c u ih =>
    intro H
    have h0 : startsWith (c :: (u ++ (markerL ++ rest))) markerL = false := by
      have := H 0 (by simp)
      simpa using this
    rw [List.cons_append, findTailFrom_cons, tailMatchHere_of_no_marker h0]
    exact ih (fun q hq => by
      have := H (q + 1) (by simp only [List.length_cons]; omega)
      rw [List.cons_append, List.drop_succ_cons] at this
      exact this)

theorem genTail {ds b : List Char} (h1 : ds.isEmpty = false)
    (h2 : ds.all Char.isDigit = true) (h3 : b.takeWhile Char.isDigit = [])
    (PP : List Char) (k : Nat) (hk : k ≤ PP.length)
    (H : ∀ q, q < PP.length →
      startsWith ((PP ++ (markerL ++ ("&id=".data ++ (ds ++ b)))).drop q)
        markerL = false) :
    findTailFrom ((PP ++ (markerL ++ ("&id=".data ++ (ds ++ b)))).drop k)
      = some (digitsToNat ds) := by
  rw [dropAppLe _ _ _ hk]
  apply mainTail (tailAtMarker ds b h1 h2 h3)
  intro q hq
  have hq' : q < PP.length - k := by simpa using hq
  have := H (k + q) (by omega)
  rw [← dropAppLe _ _ _ hk, dropDropOwn]
  exact this

/-! ### From the substring hypothesis to positional marker absence -/

theorem noMarkerBefore (rest : List Char) {P : List Char}
    (h : strContains (P ++ markerCut) markerL = false) :
    ∀ q, q < P.length →
      startsWith ((P ++ (markerL ++ rest)).drop q) markerL = false := by
  intro q hq
  cases hb : startsWith ((P ++ (markerL ++ rest)).drop q) markerL with
  | false => rfl
  | true =>
    exfalso
    have hml : markerL.length = 29 := by decide
    have hcut : (markerL ++ rest).take 28 = markerCut := rfl
    have htake : (P ++ (markerL ++ rest)).take (P.length + 28) = P ++ markerCut := by
      rw [takeAppPlus, hcut]
    have h1 : startsWith
        (((P ++ (markerL ++ rest)).drop q).take (P.length + 28 - q)) markerL = true :=
      startsWith_take hb (by rw [hml]; omega)
    rw [← dropTakeOwn, htake] at h1
    have h2 := strContains_of_drop h1
    rw [h] at h2
    exact Bool.false_ne_true h2

/-! ### The full search computes the designated id -/

theorem mainSearch {value m ds b : List Char} (h1 : ds.isEmpty = false)
    (h2 : ds.all Char.isDigit = true) (h3 : b.takeWhile Char.isDigit = []) :
    ∀ a : List Char,
      (∀ q, q < (a ++ '>' :: (value ++ m)).length →
        startsWith
          ((a ++ '>' :: (value ++ (m ++ (markerL ++ ("&id=".data ++ (ds ++ b)))))).drop q)
          markerL = false) →
      searchFrom value (a ++ '>' :: (value ++ (m ++ (markerL ++ ("&id=".data ++ (ds ++ b))))))
        = some (digitsToNat ds) := by
  intro a
  induction a with
  | nil =>
    intro H
    have Hm : ∀ q, q < m.length →
        startsWith ((m ++ (markerL ++ ("&id=".data ++ (ds ++ b)))).drop q)
          markerL = false := by
      intro q hq
      have hb : 1 + value.length + q < ([] ++ '>' :: (value ++ m)).length := by
        simp only [List.nil_append, List.length_cons, List.length_append]
        omega
      have hh := H (1 + value.length + q) hb
      rw [List.nil_append, show 1 + value.length + q = (value.length + q) + 1 by omega,
        List.drop_succ_cons, dropAppPlus] at hh
      exact hh
    rw [List.nil_append, searchFrom_cons, startMatchHere_cons]
    have hcond : (('>' == '>') &&
        startsWith (value ++ (m ++ (markerL ++ ("&id=".data ++ (ds ++ b))))) value) = true := by
      rw [startsWith_append]
      rfl
    rw [if_pos hcond, dropAppSelf]
    have hg := genTail h1 h2 h3 m 0 (Nat.zero_le _) Hm
    rw [List.drop_zero] at hg
    rw [hg]
  | cons c a ih =>
    intro H
    rw [List.cons_append, searchFrom_cons]
    cases hsm : startMatchHere value
        (c :: (a ++ '>' :: (value ++ (m ++ (markerL ++ ("&id=".data ++ (ds ++ b))))))) with
    | none =>
      exact ih (fun q hq => by
        have hb : q + 1 < ((c :: a) ++ '>' :: (value ++ m)).length := by
          simp only [List.cons_append, List.length_cons] at hq ⊢
          omega
        have hh := H (q + 1) hb
        rw [List.cons_append, List.drop_succ_cons] at hh
        exact hh)
    | some n =>
      show some n = some (digitsToNat ds)
      have hEQB : ((c :: a) ++ '>' :: (value ++ m)) ++ (markerL ++ ("&id=".data ++ (ds ++ b)))
          = (c :: a) ++ '>' :: (value ++ (m ++ (markerL ++ ("&id=".data ++ (ds ++ b))))) := by
        simp [List.append_assoc]
      have hk : value.length + 1 ≤ ((c :: a) ++ '>' :: (value ++ m)).length := by
        simp only [List.cons_append, List.length_cons, List.length_append]
        omega
      have hg := genTail h1 h2 h3 ((c :: a) ++ '>' :: (value ++ m)) (value.length + 1) hk
        (fun q hq => by
          have hh := H q (by
            simpa only [List.cons_append, List.length_cons] using hq)
          rw [← hEQB] at hh
          exact hh)
      rw [hEQB, List.cons_append, List.drop_succ_cons] at hg
      rw [startMatchHere_cons] at hsm
      split at hsm
      · rw [hg] at hsm
        exact hsm.symm
      · simp at hsm

/-! ### Soundness: a regex match needs an occurrence of `>` ++ value -/

theorem searchSound {value s : List Char} {n : Nat}
    (h : searchFrom value s = some n) : strContains s ('>' :: value) = true := by
  induction s with
  | nil => simp [searchFrom] at h
  | cons c t ih =>
    rw [searchFrom_cons] at h
    cases hsm : startMatchHere value (c :: t) with
    | none =>
      rw [hsm] at h
      rw [strContains_cons, Bool.or_eq_true]
      exact Or.inr (ih h)
    | some k =>
      rw [startMatchHere_cons] at hsm
      rw [strContains_cons, Bool.or_eq_true]
      left
      by_cases hcond : (c == '>' && startsWith t value) = true
      · exact hcond
      · rw [if_neg hcond] at hsm
        simp at hsm

/-! ### The claims -/

/-- Claim C1: for every apex domain `apex` and label sequence `sub`, calling
`add_txt_record` with `full_domain = apex` and
`validation_domain_name = sub ++ "." ++ apex` computes the subdomain
submitted in the add request's `name` parameter to be exactly `sub` (the
suffix `"." ++ apex` stripped by `rpartition`). -/
theorem claim_C1 (cl : Client) (env : Env) (apex sub v : List Char)
    (hl : strContains (env Request.userSetupGet) cl.username = true)
    (hd : strContains (env Request.primaryDnsGet) apex = true) :
    add_txt_record cl env apex (sub ++ '.' :: apex) v =
      ([Request.loginPost cl.username cl.password cl.totpNow, Request.userSetupGet,
        Request.primaryDnsGet, Request.addTxtPost apex sub cl.ttl v], none) := by
  have hrp : rpartition0 (sub ++ '.' :: apex) ('.' :: apex) = sub :=
    rpartition0_append sub ('.' :: apex) (by simp)
  have hew : endsWith (sub ++ '.' :: apex) ('.' :: apex) = true :=
    endsWith_append sub ('.' :: apex)
  simp [add_txt_record, login, check_domain, hl, hd, hew, hrp]

/-- Claim C1 witness at the spec's example
(`apex = "example.com"`, `sub = "_acme-challenge"`). -/
theorem claim_C1_witness :
    add_txt_record ⟨"alice".data, "pw".data, "123456".data, 60⟩
      (fun r => match r with
        | Request.userSetupGet => "welcome alice".data
        | Request.primaryDnsGet => "domains: example.com".data
        | _ => [])
      "example.com".data ("_acme-challenge".data ++ '.' :: "example.com".data)
      "abc123".data =
      ([Request.loginPost "alice".data "pw".data "123456".data, Request.userSetupGet,
        Request.primaryDnsGet,
        Request.addTxtPost "example.com".data "_acme-challenge".data 60 "abc123".data],
       none) :=
  claim_C1 ⟨"alice".data, "pw".data, "123456".data, 60⟩ _ "example.com".data
    "_acme-challenge".data "abc123".data (by decide) (by decide)

/-- Claim C2 counterexample: with a validation domain name that does not end
in `"." ++ full_domain`, both `add_txt_record` and `del_txt_record` DO issue
network requests — the login POST, the user-setup GET and the domain-listing
GET — before the precondition check fails, refuting the claim that the
precondition check fails before any network request is issued. -/
theorem claim_C2_counterexample :
    endsWith "bad.other.org".data ('.' :: "example.com".data) = false ∧
    add_txt_record ⟨"alice".data, "pw".data, "123456".data, 60⟩
      (fun r => match r with
        | Request.userSetupGet => "welcome alice".data
        | Request.primaryDnsGet => "domains: example.com".data
        | _ => [])
      "example.com".data "bad.other.org".data "tok".data =
      ([Request.loginPost "alice".data "pw".data "123456".data, Request.userSetupGet,
        Request.primaryDnsGet], some GdnsError.preconditionError) ∧
    del_txt_record ⟨"alice".data, "pw".data, "123456".data, 60⟩
      (fun r => match r with
        | Request.userSetupGet => "welcome alice".data
        | Request.primaryDnsGet => "domains: example.com".data
        | _ => [])
      "example.com".data "bad.other.org".data "tok".data =
      ([Request.loginPost "alice".data "pw".data "123456".data, Request.userSetupGet,
        Request.primaryDnsGet], some GdnsError.preconditionError) := by
  decide

/-- Claim C2 (amended): when `validation_domain_name` does not end with
`"." ++ full_domain`, both `add_txt_record` and `del_txt_record` fail with
the precondition (assertion) error before the record-listing request and
before any mutating request is issued — but only after the login and
domain-check requests have been issued, since the assertion in the source
runs after `login()` and `check_domain()`. -/
theorem claim_C2_amended (cl : Client) (env : Env) (d vdn v : List Char)
    (hl : strContains (env Request.userSetupGet) cl.username = true)
    (hd : strContains (env Request.primaryDnsGet) d = true)
    (hs : endsWith vdn ('.' :: d) = false) :
    add_txt_record cl env d vdn v =
      ([Request.loginPost cl.username cl.password cl.totpNow, Request.userSetupGet,
        Request.primaryDnsGet], some GdnsError.preconditionError) ∧
    del_txt_record cl env d vdn v =
      ([Request.loginPost cl.username cl.password cl.totpNow, Request.userSetupGet,
        Request.primaryDnsGet], some GdnsError.preconditionError) := by
  constructor
  · simp [add_txt_record, login, check_domain, hl, hd, hs]
  · simp [del_txt_record, login, check_domain, hl, hd, hs]

/-- Claim C2 (amended) witness at a concrete bad input. -/
theorem claim_C2_witness :
    add_txt_record ⟨"bob".data, "pw".data, "000000".data, 60⟩
      (fun r => match r with
        | Request.userSetupGet => "hello bob".data
        | Request.primaryDnsGet => "apex.test".data
        | _ => [])
      "apex.test".data "unrelated.example".data "tok".data =
      ([Request.loginPost "bob".data "pw".data "000000".data, Request.userSetupGet,
        Request.primaryDnsGet], some GdnsError.preconditionError) ∧
    del_txt_record ⟨"bob".data, "pw".data, "000000".data, 60⟩
      (fun r => match r with
        | Request.userSetupGet => "hello bob".data
        | Request.primaryDnsGet => "apex.test".data
        | _ => [])
      "apex.test".data "unrelated.example".data "tok".data =
      ([Request.loginPost "bob".data "pw".data "000000".data, Request.userSetupGet,
        Request.primaryDnsGet], some GdnsError.preconditionError) :=
  claim_C2_amended ⟨"bob".data, "pw".data, "000000".data, 60⟩ _ "apex.test".data
    "unrelated.example".data "tok".data (by decide) (by decide) (by decide)

/-- Claim C3: when the listing-page body does not contain the record value,
`get_txt_record_id` returns the not-found sentinel (`none`, no error), and
`del_txt_record` returns successfully without issuing any deletion request
(its trace ends at the listing request). -/
theorem claim_C3 (cl : Client) (env : Env) (d vdn v : List Char)
    (hl : strContains (env Request.userSetupGet) cl.username = true)
    (hd : strContains (env Request.primaryDnsGet) d = true)
    (hs : endsWith vdn ('.' :: d) = true)
    (hn : strContains (env (Request.changeSetupGet d)) v = false) :
    get_txt_record_id env d v = ([Request.changeSetupGet d], Except.ok none) ∧
    del_txt_record cl env d vdn v =
      ([Request.loginPost cl.username cl.password cl.totpNow, Request.userSetupGet,
        Request.primaryDnsGet, Request.changeSetupGet d], none) := by
  have hget : get_txt_record_id_body v (env (Request.changeSetupGet d))
      = Except.ok none := by
    simp [get_txt_record_id_body, hn]
  constructor
  · simp [get_txt_record_id, hget]
  · simp [del_txt_record, login, check_domain, get_txt_record_id, hl, hd, hs, hget]

/-- Claim C3 witness: a listing body without the token value. -/
theorem claim_C3_witness :
    get_txt_record_id
      (fun r => match r with
        | Request.userSetupGet => "hi carol".data
        | Request.primaryDnsGet => "apex.test".data
        | Request.changeSetupGet _ => "<table>no records here</table>".data
        | _ => [])
      "apex.test".data "TOKENVALUE".data =
      ([Request.changeSetupGet "apex.test".data], Except.ok none) ∧
    del_txt_record ⟨"carol".data, "pw".data, "999999".data, 60⟩
      (fun r => match r with
        | Request.userSetupGet => "hi carol".data
        | Request.primaryDnsGet => "apex.test".data
        | Request.changeSetupGet _ => "<table>no records here</table>".data
        | _ => [])
      "apex.test".data ("sub".data ++ '.' :: "apex.test".data) "TOKENVALUE".data =
      ([Request.loginPost "carol".data "pw".data "999999".data, Request.userSetupGet,
        Request.primaryDnsGet, Request.changeSetupGet "apex.test".data], none) :=
  claim_C3 ⟨"carol".data, "pw".data, "999999".data, 60⟩ _ "apex.test".data
    ("sub".data ++ '.' :: "apex.test".data) "TOKENVALUE".data
    (by decide) (by decide) (by decide) (by decide)

/-- Claim C4: for a listing-page body containing the literal value preceded
by `>` and followed (possibly across lines and intervening markup `m`) by a
deletion-action link with a numeric id parameter `ds`, `get_txt_record_id`
returns that id as an integer.  The hypotheses pin the described occurrence
down as the one the regex engine finds: `ds` is a non-empty digit run not
continued by `b`, and the deletion-link marker does not occur anywhere
strictly before the designated one. -/
theorem claim_C4 (value a m ds b : List Char)
    (h1 : ds.isEmpty = false)
    (h2 : ds.all Char.isDigit = true)
    (h3 : b.takeWhile Char.isDigit = [])
    (h4 : strContains ((a ++ '>' :: (value ++ m)) ++ markerCut) markerL = false) :
    get_txt_record_id_body value
      (a ++ '>' :: (value ++ (m ++ (markerL ++ ("&id=".data ++ (ds ++ b))))))
      = Except.ok (some (digitsToNat ds)) := by
  have hEQ : (a ++ '>' :: (value ++ m)) ++ (markerL ++ ("&id=".data ++ (ds ++ b)))
      = a ++ '>' :: (value ++ (m ++ (markerL ++ ("&id=".data ++ (ds ++ b))))) := by
    simp [List.append_assoc]
  have H := noMarkerBefore ("&id=".data ++ (ds ++ b)) h4
  rw [hEQ] at H
  have hsearch := mainSearch h1 h2 h3 a H
  have hcont : strContains
      (a ++ '>' :: (value ++ (m ++ (markerL ++ ("&id=".data ++ (ds ++ b)))))) value
      = true := by
    have hshape : a ++ '>' :: (value ++ (m ++ (markerL ++ ("&id=".data ++ (ds ++ b)))))
        = (a ++ ['>']) ++ (value ++ (m ++ (markerL ++ ("&id=".data ++ (ds ++ b))))) := by
      simp [List.append_assoc]
    rw [hshape]
    exact strContains_mid _ _ _
  unfold get_txt_record_id_body
  rw [if_pos hcont, hsearch]

/-- Claim C4 witness at the spec's example: a body containing
`>TOKENVALUE...action=dns_primary_delete_txt&id=12345` yields id 12345. -/
theorem claim_C4_witness :
    get_txt_record_id_body "TOKENVALUE".data
      ("<tr><td".data ++ '>' :: ("TOKENVALUE".data ++ ("</td><td><a href=?".data ++
        (markerL ++ ("&id=".data ++ ("12345".data ++ ">delete</a>".data))))))
      = Except.ok (some 12345) :=
  claim_C4 "TOKENVALUE".data "<tr><td".data "</td><td><a href=?".data
    "12345".data ">delete</a>".data (by decide) (by decide) (by decide) (by decide)

/-- Claim C5: when the listing-page body contains the record value but the
deletion-link regex does not match, `get_txt_record_id` fails with the parse
error (it never returns the not-found sentinel in that situation). -/
theorem claim_C5 (env : Env) (d v : List Char)
    (h1 : strContains (env (Request.changeSetupGet d)) v = true)
    (h2 : searchFrom v (env (Request.changeSetupGet d)) = none) :
    get_txt_record_id env d v =
      ([Request.changeSetupGet d], Except.error GdnsError.parseError) := by
  simp [get_txt_record_id, get_txt_record_id_body, h1, h2]

/-- Claim C5 witness: a body containing the value but no matching pattern. -/
theorem claim_C5_witness :
    get_txt_record_id
      (fun r => match r with
        | Request.changeSetupGet _ => "here is TOKENVALUE without a link".data
        | _ => [])
      "apex.test".data "TOKENVALUE".data =
      ([Request.changeSetupGet "apex.test".data], Except.error GdnsError.parseError) :=
  claim_C5 _ "apex.test".data "TOKENVALUE".data (by decide) (by decide)

/-- Claim C10: when the record value occurs in the body but no occurrence is
immediately preceded by `>`, `get_txt_record_id` fails with the parse error
even when a deletion-action link with a numeric id follows the value: the
substring presence check is strictly weaker than the regex match. -/
theorem claim_C10 (validation body : List Char)
    (h1 : strContains body validation = true)
    (h2 : strContains body ('>' :: validation) = false) :
    get_txt_record_id_body validation body = Except.error GdnsError.parseError := by
  have hsearch : searchFrom validation body = none := by
    cases hs : searchFrom validation body with
    | none => rfl
    | some n =>
      have hocc := searchSound hs
      rw [h2] at hocc
      exact absurd hocc (by simp)
  simp [get_txt_record_id_body, h1, hsearch]

/-- Claim C10 witness: the value occurs (never preceded by `>`) and is even
followed by a deletion link with a numeric id, yet the parse error is
raised. -/
theorem claim_C10_witness :
    get_txt_record_id_body "TOKENVALUE".data
      ("td TOKENVALUE td action=dns_primary_delete_txt&id=12345".data)
      = Except.error GdnsError.parseError :=
  claim_C10 "TOKENVALUE".data
    "td TOKENVALUE td action=dns_primary_delete_txt&id=12345".data
    (by decide) (by decide)

/-- Claim C6: when the profile-endpoint (user-setup) response body does not
contain the username, `login` fails with the authentication error, and the
enclosing add and delete operations issue no domain-check, listing or
mutating request afterwards: their traces stop at the user-setup GET. -/
theorem claim_C6 (cl : Client) (env : Env) (d vdn v : List Char)
    (h : strContains (env Request.userSetupGet) cl.username = false) :
    login cl env =
      ([Request.loginPost cl.username cl.password cl.totpNow, Request.userSetupGet],
       some GdnsError.authenticationError) ∧
    add_txt_record cl env d vdn v =
      ([Request.loginPost cl.username cl.password cl.totpNow, Request.userSetupGet],
       some GdnsError.authenticationError) ∧
    del_txt_record cl env d vdn v =
      ([Request.loginPost cl.username cl.password cl.totpNow, Request.userSetupGet],
       some GdnsError.authenticationError) := by
  refine ⟨?_, ?_, ?_⟩
  · simp [login, h]
  · simp [add_txt_record, login, h]
  · simp [del_txt_record, login, h]

/-- Claim C6 witness: a profile response missing the username. -/
theorem claim_C6_witness :
    login ⟨"dave".data, "pw".data, "111111".data, 60⟩
      (fun r => match r with
        | Request.userSetupGet => "access denied".data
        | _ => "dave example.com".data) =
      ([Request.loginPost "dave".data "pw".data "111111".data, Request.userSetupGet],
       some GdnsError.authenticationError) ∧
    add_txt_record ⟨"dave".data, "pw".data, "111111".data, 60⟩
      (fun r => match r with
        | Request.userSetupGet => "access denied".data
        | _ => "dave example.com".data)
      "example.com".data "sub.example.com".data "tok".data =
      ([Request.loginPost "dave".data "pw".data "111111".data, Request.userSetupGet],
       some GdnsError.authenticationError) ∧
    del_txt_record ⟨"dave".data, "pw".data, "111111".data, 60⟩
      (fun r => match r with
        | Request.userSetupGet => "access denied".data
        | _ => "dave example.com".data)
      "example.com".data "sub.example.com".data "tok".data =
      ([Request.loginPost "dave".data "pw".data "111111".data, Request.userSetupGet],
       some GdnsError.authenticationError) :=
  claim_C6 ⟨"dave".data, "pw".data, "111111".data, 60⟩ _ "example.com".data
    "sub.example.com".data "tok".data (by decide)

/-- Claim C7: whenever `del_txt_record` issues a deletion request (a record
id `i` was found by the scraper), it fails with the deletion error if and
only if the deletion response body does not contain the success marker
`"Record was deleted"`; otherwise it returns successfully. -/
theorem claim_C7 (cl : Client) (env : Env) (d vdn v : List Char) (i : Nat)
    (hl : strContains (env Request.userSetupGet) cl.username = true)
    (hd : strContains (env Request.primaryDnsGet) d = true)
    (hs : endsWith vdn ('.' :: d) = true)
    (hc : strContains (env (Request.changeSetupGet d)) v = true)
    (hid : searchFrom v (env (Request.changeSetupGet d)) = some i) :
    del_txt_record cl env d vdn v =
      ([Request.loginPost cl.username cl.password cl.totpNow, Request.userSetupGet,
        Request.primaryDnsGet, Request.changeSetupGet d, Request.deleteTxtGet i d],
       if strContains (env (Request.deleteTxtGet i d)) successMarker then none
       else some GdnsError.deletionFailedError) ∧
    ((del_txt_record cl env d vdn v).2 = some GdnsError.deletionFailedError ↔
      strContains (env (Request.deleteTxtGet i d)) successMarker = false) := by
  have hbody : get_txt_record_id_body v (env (Request.changeSetupGet d))
      = Except.ok (some i) := by
    simp [get_txt_record_id_body, hc, hid]
  have hmain : del_txt_record cl env d vdn v =
      ([Request.loginPost cl.username cl.password cl.totpNow, Request.userSetupGet,
        Request.primaryDnsGet, Request.changeSetupGet d, Request.deleteTxtGet i d],
       if strContains (env (Request.deleteTxtGet i d)) successMarker then none
       else some GdnsError.deletionFailedError) := by
    simp [del_txt_record, login, check_domain, get_txt_record_id, hl, hd, hs, hbody]
  refine ⟨hmain, ?_⟩
  rw [hmain]
  cases hm : strContains (env (Request.deleteTxtGet i d)) successMarker with
  | true => simp [hm]
  | false => simp [hm]

/-- Claim C7 witness at the spec's end-to-end scenario: listing yields
id 99 and the deletion response lacks the success marker, so the deletion
request is issued with id 99 and the deletion error is raised. -/
theorem claim_C7_witness :
    del_txt_record ⟨"erin".data, "pw".data, "222222".data, 60⟩
      (fun r => match r with
        | Request.userSetupGet => "hello erin".data
        | Request.primaryDnsGet => "apex.test".data
        | Request.changeSetupGet _ => ">tok</td>action=dns_primary_delete_txt&id=99".data
        | _ => "nothing here".data)
      "apex.test".data ("sub".data ++ '.' :: "apex.test".data) "tok".data =
      ([Request.loginPost "erin".data "pw".data "222222".data, Request.userSetupGet,
        Request.primaryDnsGet, Request.changeSetupGet "apex.test".data,
        Request.deleteTxtGet 99 "apex.test".data],
       some GdnsError.deletionFailedError) ∧
    strContains "nothing here".data successMarker = false := by
  have h := claim_C7 ⟨"erin".data, "pw".data, "222222".data, 60⟩
    (fun r => match r with
      | Request.userSetupGet => "hello erin".data
      | Request.primaryDnsGet => "apex.test".data
      | Request.changeSetupGet _ => ">tok</td>action=dns_primary_delete_txt&id=99".data
      | _ => "nothing here".data)
    "apex.test".data ("sub".data ++ '.' :: "apex.test".data) "tok".data 99
    (by decide) (by decide) (by decide) (by decide) (by decide)
  exact ⟨h.1.trans (by decide), by decide⟩

/-- Claim C8: `add_txt_record` never inspects the add-request response body:
its entire outcome (trace and result) is unchanged by replacing the
environment with any other environment agreeing on the two inspected
responses (user-setup and domain listing) — in particular the add-response
and login-POST-response bodies are arbitrary — and, when login, the domain
check and the suffix precondition succeed, it returns without error. -/
theorem claim_C8 (cl : Client) (env1 env2 : Env) (d vdn v : List Char)
    (he1 : env1 Request.userSetupGet = env2 Request.userSetupGet)
    (he2 : env1 Request.primaryDnsGet = env2 Request.primaryDnsGet)
    (hl : strContains (env1 Request.userSetupGet) cl.username = true)
    (hd : strContains (env1 Request.primaryDnsGet) d = true)
    (hs : endsWith vdn ('.' :: d) = true) :
    add_txt_record cl env1 d vdn v = add_txt_record cl env2 d vdn v ∧
    (add_txt_record cl env1 d vdn v).2 = none := by
  have hl2 : strContains (env2 Request.userSetupGet) cl.username = true := by
    rw [← he1]; exact hl
  have hd2 : strContains (env2 Request.primaryDnsGet) d = true := by
    rw [← he2]; exact hd
  constructor
  · simp [add_txt_record, login, check_domain, hl, hd, hl2, hd2, hs]
  · simp [add_txt_record, login, check_domain, hl, hd, hs]

/-- Claim C8 witness: two environments differing on the add-request (and
login POST) responses give identical outcomes. -/
theorem claim_C8_witness :
    add_txt_record ⟨"fred".data, "pw".data, "333333".data, 60⟩
      (fun r => match r with
        | Request.userSetupGet => "hi fred".data
        | Request.primaryDnsGet => "apex.test".data
        | _ => "response A".data)
      "apex.test".data ("sub".data ++ '.' :: "apex.test".data) "tok".data =
    add_txt_record ⟨"fred".data, "pw".data, "333333".data, 60⟩
      (fun r => match r with
        | Request.userSetupGet => "hi fred".data
        | Request.primaryDnsGet => "apex.test".data
        | _ => "entirely different response B".data)
      "apex.test".data ("sub".data ++ '.' :: "apex.test".data) "tok".data ∧
    (add_txt_record ⟨"fred".data, "pw".data, "333333".data, 60⟩
      (fun r => match r with
        | Request.userSetupGet => "hi fred".data
        | Request.primaryDnsGet => "apex.test".data
        | _ => "response A".data)
      "apex.test".data ("sub".data ++ '.' :: "apex.test".data) "tok".data).2 = none :=
  claim_C8 ⟨"fred".data, "pw".data, "333333".data, 60⟩ _ _ "apex.test".data
    ("sub".data ++ '.' :: "apex.test".data) "tok".data
    (by decide) (by decide) (by decide) (by decide) (by decide)

/-- The discriminator computes the per-kind code on every exception value. -/
theorem excKindCode_pyExcOf (e : GdnsError) (u d : List Char) :
    excKindCode (pyExcOf e u d) = codeOf e := by
  cases e <;> rfl

/-- Claim C9: each of the five failure kinds is surfaced as a distinct
exception value (the four runtime failures as `Exception` with pairwise
distinct messages, the precondition failure as `AssertionError`): for all
dynamic message parts, equal exception values come from equal kinds. -/
theorem claim_C9 (e1 e2 : GdnsError) (u1 d1 u2 d2 : List Char)
    (h : pyExcOf e1 u1 d1 = pyExcOf e2 u2 d2) : e1 = e2 := by
  have hk := congrArg excKindCode h
  rw [excKindCode_pyExcOf, excKindCode_pyExcOf] at hk
  cases e1 <;> cases e2 <;> first | rfl | exact absurd hk (by decide)

/-- Claim C9 witness at a concrete kind. -/
theorem claim_C9_witness : GdnsError.parseError = GdnsError.parseError :=
  claim_C9 GdnsError.parseError GdnsError.parseError "u".data "d".data
    "u".data "d".data (by decide)
